import Mathlib

/-!
Shallow embedding of the Iceland road-tax vs fuel-tax calculator
(`src/src/App.tsx`) together with proofs about its validation,
breakdown calculation and chart-series generation.

Modelling conventions:
* TypeScript numbers are modelled as rationals (`ℚ`); the arithmetic the
  calculator performs (add, multiply, divide by constants, `Math.ceil`,
  `Math.round`, `Math.max`) is exact on the inputs of interest.
* An empty input field (the TS value `''`), as well as a `NaN` entry — both
  treated identically by the validator's first rule — is modelled as `none`.
* The component state handled by the React `useState` hooks is collected in
  one structure `AppState`; each event handler becomes a function
  `AppState → AppState` (or `AppState × Bool` where the source returns a
  boolean).
* The chart `for` loops can in principle diverge (step `0`), so the loop is
  embedded as a function returning `Option`; `none` marks divergence.
-/

namespace FuelTax

/-- The vehicle categories (`type VehicleType = 'Petrol/Diesel' | 'Electric'`). -/
inductive VehicleType where
  | petrolDiesel
  | electric
deriving DecidableEq, Repr

/-- Default efficiency by vehicle type (`defaultEfficiency`). -/
def defaultEfficiency : VehicleType → ℚ
  | .petrolDiesel => 6.5
  | .electric => 18

/-- Default current price by vehicle type (`defaultCurrentPrice`). -/
def defaultCurrentPrice : VehicleType → ℚ
  | .petrolDiesel => 185
  | .electric => 25.7

/-- Default past price by vehicle type (`defaultPastPrice`). -/
def defaultPastPrice : VehicleType → ℚ
  | .petrolDiesel => 300
  | .electric => 25.7

/-- The record stored in the `computedBreakdown` state by `handleCalculate`. -/
structure Breakdown where
  consumed : ℚ
  previousEstimatedCost : ℚ
  newFuelCost : ℚ
  newTaxes : ℚ
  newTotalCost : ℚ
deriving DecidableEq, Repr

/-- The component state of `App`: the five inputs, the stored validation
errors, the three graph-expansion flags and the optional computed breakdown.
An empty field (`''`) or a `NaN` entry is `none`. -/
structure AppState where
  vehicleType : VehicleType
  distance : Option ℚ
  efficiency : Option ℚ
  currentFuelPrice : Option ℚ
  pastFuelPrice : Option ℚ
  errors : List String
  isGraphExpanded : Bool
  isVehicleComparisonExpanded : Bool
  isEfficiencyComparisonExpanded : Bool
  computedBreakdown : Option Breakdown
deriving DecidableEq, Repr

/-- The localized price label used inside the validation messages
(`const priceLabel = vehicleType === 'Electric' ? 'electricity price' : 'fuel price'`). -/
def priceLabel : VehicleType → String
  | .electric => "electricity price"
  | .petrolDiesel => "fuel price"

/-- The distance rule block of `validateInputs`: the message pushed for the
`distance` field, if any (`''`/NaN, negative, above one million). -/
def distanceMessages (distance : Option ℚ) : List String :=
  match distance with
  | none => ["Annual distance is required"]
  | some q =>
    if q < 0 then ["Distance cannot be negative"]
    else if 1000000 < q then ["Distance seems unreasonably large"]
    else []

/-- The efficiency rule block of `validateInputs`. -/
def efficiencyMessages (efficiency : Option ℚ) : List String :=
  match efficiency with
  | none => ["Efficiency is required"]
  | some q =>
    if q ≤ 0 then ["Efficiency must be greater than 0"]
    else if 1000 < q then ["Efficiency seems unreasonably large"]
    else []

/-- The current-price rule block of `validateInputs`. -/
def currentPriceMessages (vt : VehicleType) (price : Option ℚ) : List String :=
  match price with
  | none => ["Current " ++ priceLabel vt ++ " is required"]
  | some q =>
    if q < 0 then ["Current " ++ priceLabel vt ++ " cannot be negative"]
    else if 10000 < q then ["Current " ++ priceLabel vt ++ " seems unreasonably large"]
    else []

/-- The past-price rule block of `validateInputs`. -/
def pastPriceMessages (vt : VehicleType) (price : Option ℚ) : List String :=
  match price with
  | none => ["Past " ++ priceLabel vt ++ " is required"]
  | some q =>
    if q < 0 then ["Past " ++ priceLabel vt ++ " cannot be negative"]
    else if 10000 < q then ["Past " ++ priceLabel vt ++ " seems unreasonably large"]
    else []

/-- The list `errs` that `validateInputs` builds with its four push blocks,
in source order (distance, efficiency, current price, past price), before
storing it with `setErrors`. -/
def validationMessages (st : AppState) : List String :=
  let errs : List String := []
  let errs := errs ++ (match st.distance with
    | none => ["Annual distance is required"]
    | some q =>
      if q < 0 then ["Distance cannot be negative"]
      else if 1000000 < q then ["Distance seems unreasonably large"]
      else [])
  let errs := errs ++ (match st.efficiency with
    | none => ["Efficiency is required"]
    | some q =>
      if q ≤ 0 then ["Efficiency must be greater than 0"]
      else if 1000 < q then ["Efficiency seems unreasonably large"]
      else [])
  let errs := errs ++ (match st.currentFuelPrice with
    | none => ["Current " ++ priceLabel st.vehicleType ++ " is required"]
    | some q =>
      if q < 0 then ["Current " ++ priceLabel st.vehicleType ++ " cannot be negative"]
      else if 10000 < q then ["Current " ++ priceLabel st.vehicleType ++ " seems unreasonably large"]
      else [])
  let errs := errs ++ (match st.pastFuelPrice with
    | none => ["Past " ++ priceLabel st.vehicleType ++ " is required"]
    | some q =>
      if q < 0 then ["Past " ++ priceLabel st.vehicleType ++ " cannot be negative"]
      else if 10000 < q then ["Past " ++ priceLabel st.vehicleType ++ " seems unreasonably large"]
      else [])
  errs

/-- The `validateInputs` handler: builds `errs`, stores it (`setErrors(errs)`)
and returns `errs.length === 0`. -/
def validateInputs (st : AppState) : AppState × Bool :=
  let errs := validationMessages st
  ({ st with errors := errs }, errs.length == 0)

/-- The `handleCalculate` handler: runs validation (which stores the
messages) and returns early when it fails; otherwise computes the breakdown
from the inputs and stores it.  `Number('')` is `0` in JS, hence `getD 0`
(the valid branch never actually reads an unset field). -/
def handleCalculate (st : AppState) : AppState :=
  let v := validateInputs st
  if v.2 then
    let d := st.distance.getD 0
    let eff := st.efficiency.getD 0
    let costPerUnit := st.currentFuelPrice.getD 0
    let pastCostPerUnit := st.pastFuelPrice.getD 0
    let consumed := d * eff / 100
    let previousEstimatedCost := consumed * pastCostPerUnit
    let newFuelCost := consumed * costPerUnit
    let roadTaxPerKm : ℚ := 6.95
    let newTaxes := d * roadTaxPerKm
    let newTotalCost := newFuelCost + newTaxes
    let b := Breakdown.mk consumed previousEstimatedCost newFuelCost newTaxes newTotalCost
    { v.1 with computedBreakdown := some b }
  else v.1

/-- The `savings` memo: `null` without a breakdown, otherwise
`previousEstimatedCost - newTotalCost`. -/
def savings (st : AppState) : Option ℚ :=
  match st.computedBreakdown with
  | none => none
  | some b => some (b.previousEstimatedCost - b.newTotalCost)

/-- The initial component state (the `useState` initial values). -/
def initialState : AppState :=
  { vehicleType := .petrolDiesel
    distance := some 15000
    efficiency := some 6.5
    currentFuelPrice := some 185
    pastFuelPrice := some 300
    errors := []
    isGraphExpanded := false
    isVehicleComparisonExpanded := false
    isEfficiencyComparisonExpanded := false
    computedBreakdown := none }

/-- The user-triggerable state transitions of the component: the five input
`onChange` handlers, the Calculate submission, the Reset button and the three
graph-expansion toggles. -/
inductive Action where
  | setVehicleType (vt : VehicleType)
  | setDistance (v : Option ℚ)
  | setEfficiency (v : Option ℚ)
  | setCurrentFuelPrice (v : Option ℚ)
  | setPastFuelPrice (v : Option ℚ)
  | calculate
  | reset
  | toggleGraph
  | toggleVehicleComparison
  | toggleEfficiencyComparison
deriving DecidableEq, Repr

/-- The effect of each action on the component state, as wired in the JSX:
changing the vehicle type also overwrites efficiency and both prices with the
new type's defaults; Reset restores the initial inputs, clears the errors and
discards the breakdown (expansion flags are untouched by both). -/
def dispatch : Action → AppState → AppState
  | .setVehicleType vt, st =>
      { st with vehicleType := vt
                efficiency := some (defaultEfficiency vt)
                currentFuelPrice := some (defaultCurrentPrice vt)
                pastFuelPrice := some (defaultPastPrice vt) }
  | .setDistance v, st => { st with distance := v }
  | .setEfficiency v, st => { st with efficiency := v }
  | .setCurrentFuelPrice v, st => { st with currentFuelPrice := v }
  | .setPastFuelPrice v, st => { st with pastFuelPrice := v }
  | .calculate, st => handleCalculate st
  | .reset, st =>
      { st with vehicleType := .petrolDiesel
                distance := some 15000
                efficiency := some (defaultEfficiency .petrolDiesel)
                currentFuelPrice := some 185
                pastFuelPrice := some 300
                errors := []
                computedBreakdown := none }
  | .toggleGraph, st => { st with isGraphExpanded := !st.isGraphExpanded }
  | .toggleVehicleComparison, st =>
      { st with isVehicleComparisonExpanded := !st.isVehicleComparisonExpanded }
  | .toggleEfficiencyComparison, st =>
      { st with isEfficiencyComparisonExpanded := !st.isEfficiencyComparisonExpanded }

/-- JS truthiness of a numeric input value: `''` (and NaN, subsumed by
`none`) and `0` are falsy, every other number is truthy.  This is the test
the generator guards perform with `!distance`, `!efficiency`, etc. -/
def truthy : Option ℚ → Bool
  | none => false
  | some q => q != 0

/-- The successive values of `d` produced by the sampling loop
`for (let d = 0; d <= max; d += step)` when entered at `d`, in the case
`0 < step` (in which the loop terminates).  For other steps the loop either
never runs its body (`max < 0`) or diverges; both cases are handled by
`forLoopPoints`, which never enters this function with a nonpositive step. -/
def loopFrom (maxDistance stepSize d : ℚ) : List ℚ :=
  if 0 < stepSize ∧ d ≤ maxDistance then
    d :: loopFrom maxDistance stepSize (d + stepSize)
  else []
termination_by (⌊(maxDistance - d) / stepSize⌋ + 1).toNat
decreasing_by
  rename_i h
  obtain ⟨hs, hd⟩ := h
  have hne : stepSize ≠ 0 := ne_of_gt hs
  have h1 : (maxDistance - (d + stepSize)) / stepSize = (maxDistance - d) / stepSize - 1 := by
    field_simp
    ring
  have h2 : ⌊(maxDistance - d) / stepSize - 1⌋ = ⌊(maxDistance - d) / stepSize⌋ - 1 := by
    exact_mod_cast Int.floor_sub_int ((maxDistance - d) / stepSize) 1
  have h3 : (0 : ℚ) ≤ (maxDistance - d) / stepSize :=
    div_nonneg (by linarith) (le_of_lt hs)
  have h4 : (0 : ℤ) ≤ ⌊(maxDistance - d) / stepSize⌋ := Int.floor_nonneg.mpr h3
  rw [h1, h2]
  omega

/-- The outcome of the whole sampling loop started at `d = 0`: `some` the
collected sample distances when the loop terminates, `none` when it diverges
(which happens exactly when the step is nonpositive while `0 ≤ max`, so that
`d` never moves past `max`). -/
def forLoopPoints (maxDistance stepSize : ℚ) : Option (List ℚ) :=
  if 0 < stepSize then some (loopFrom maxDistance stepSize 0)
  else if maxDistance < 0 then some []
  else none

/-- One sample point of the old-vs-new `graphData` dataset; the two series
keys (`t('oldSystem')`, `t('newSystem')`) are language-independent fields. -/
structure GraphPoint where
  distance : ℚ
  oldSystem : ℤ
  newSystem : ℤ
deriving DecidableEq, Repr

/-- One sample point of the `vehicleComparisonData` dataset: new/old cost of
the current vehicle type and of the other vehicle type (with defaults). -/
structure VehiclePoint where
  distance : ℚ
  currentNew : ℤ
  currentOld : ℤ
  otherNew : ℤ
  otherOld : ℤ
deriving DecidableEq, Repr

/-- One sample point of the `efficiencyComparisonData` dataset: old system at
the base efficiency, new system at base, base + 1 and `max(0, base - 1)`. -/
structure EfficiencyPoint where
  distance : ℚ
  oldSystem : ℤ
  newBase : ℤ
  newPlus1 : ℤ
  newMinus1 : ℤ
deriving DecidableEq, Repr

/-- The `graphData` memo.  `some` the produced dataset; `none` if the inner
loop diverges (unreachable: the guard rejects falsy distances).  The guard
`!computedBreakdown || !distance || !efficiency || !currentFuelPrice ||
!pastFuelPrice` returns the empty dataset. -/
def graphData (st : AppState) : Option (List GraphPoint) :=
  if st.computedBreakdown.isSome && truthy st.distance && truthy st.efficiency
      && truthy st.currentFuelPrice && truthy st.pastFuelPrice then
    let maxDistance := st.distance.getD 0 * 2
    let stepSize : ℚ := (⌈maxDistance / 20⌉ : ℤ)
    (forLoopPoints maxDistance stepSize).map (fun ds => ds.map (fun d =>
      let consumed := d * st.efficiency.getD 0 / 100
      let oldSystemCost := consumed * st.pastFuelPrice.getD 0
      let newSystemCost := d * 6.95 + consumed * st.currentFuelPrice.getD 0
      GraphPoint.mk d (round oldSystemCost) (round newSystemCost)))
  else some []

/-- The other vehicle type used by the comparison chart
(`vehicleType === 'Electric' ? 'Petrol/Diesel' : 'Electric'`). -/
def otherVehicleType : VehicleType → VehicleType
  | .electric => .petrolDiesel
  | .petrolDiesel => .electric

/-- The `vehicleComparisonData` memo.  Its guard checks only
`!computedBreakdown || !distance`, not the other three inputs; inside the
loop, unset efficiency and prices read as `0` through the `typeof` checks. -/
def vehicleComparisonData (st : AppState) : Option (List VehiclePoint) :=
  if st.computedBreakdown.isSome && truthy st.distance then
    let maxDistance := st.distance.getD 0 * 2
    let stepSize : ℚ := (⌈maxDistance / 20⌉ : ℤ)
    let other := otherVehicleType st.vehicleType
    let otherEfficiency := defaultEfficiency other
    let otherCurrentPrice := defaultCurrentPrice other
    let otherPastPrice := defaultPastPrice other
    (forLoopPoints maxDistance stepSize).map (fun ds => ds.map (fun d =>
      let currentConsumed := d * st.efficiency.getD 0 / 100
      let currentNewCost := d * 6.95 + currentConsumed * st.currentFuelPrice.getD 0
      let currentOldCost := currentConsumed * st.pastFuelPrice.getD 0
      let otherConsumed := d * otherEfficiency / 100
      let otherNewCost := d * 6.95 + otherConsumed * otherCurrentPrice
      let otherOldCost := otherConsumed * otherPastPrice
      VehiclePoint.mk d (round currentNewCost) (round currentOldCost)
        (round otherNewCost) (round otherOldCost)))
  else some []

/-- The `efficiencyComparisonData` memo: new-system cost at the base
efficiency, at base + 1 and at `Math.max(0, base - 1)`, next to the
old-system baseline. -/
def efficiencyComparisonData (st : AppState) : Option (List EfficiencyPoint) :=
  if st.computedBreakdown.isSome && truthy st.distance && truthy st.efficiency
      && truthy st.currentFuelPrice && truthy st.pastFuelPrice then
    let maxDistance := st.distance.getD 0 * 2
    let stepSize : ℚ := (⌈maxDistance / 20⌉ : ℤ)
    let baseEfficiency := st.efficiency.getD 0
    let lessEfficientValue := baseEfficiency + 1
    let moreEfficientValue := max 0 (baseEfficiency - 1)
    (forLoopPoints maxDistance stepSize).map (fun ds => ds.map (fun d =>
      let baseConsumed := d * baseEfficiency / 100
      let baseOldCost := baseConsumed * st.pastFuelPrice.getD 0
      let baseNewCost := d * 6.95 + baseConsumed * st.currentFuelPrice.getD 0
      let lessEfficientConsumed := d * lessEfficientValue / 100
      let lessEfficientCost := d * 6.95 + lessEfficientConsumed * st.currentFuelPrice.getD 0
      let moreEfficientConsumed := d * moreEfficientValue / 100
      let moreEfficientCost := d * 6.95 + moreEfficientConsumed * st.currentFuelPrice.getD 0
      EfficiencyPoint.mk d (round baseOldCost) (round baseNewCost)
        (round lessEfficientCost) (round moreEfficientCost)))
  else some []

/-! ### Concrete states used by witnesses and counterexamples -/

/-- A state with an invalid distance input and a previously stored breakdown,
used to witness the failed-recalculation behaviour. -/
def staleBreakdownState : AppState :=
  { initialState with distance := some (-1), computedBreakdown := some (Breakdown.mk 0 0 0 0 0) }

/-- A state with base efficiency 0.5 and a stored breakdown, exercising the
clamped more-efficient series. -/
def halfEfficiencyState : AppState :=
  { initialState with
      distance := some (1/2)
      efficiency := some 0.5
      computedBreakdown := some (Breakdown.mk 0 0 0 0 0) }

/-- A state with distance 0 and a stored breakdown: the generators' guards
reject it (`!distance` is true for `0`), so the datasets are empty. -/
def zeroDistanceState : AppState :=
  { initialState with
      distance := some 0
      computedBreakdown := some (Breakdown.mk 0 0 0 0 0) }

/-- A state with a stored breakdown, a truthy distance but an unset
efficiency: `vehicleComparisonData`'s guard does not look at efficiency. -/
def missingEfficiencyState : AppState :=
  { initialState with
      distance := some (1/2)
      efficiency := none
      computedBreakdown := some (Breakdown.mk 0 0 0 0 0) }

/-- A state whose efficiency input is zero (falsy), with a breakdown. -/
def zeroEfficiencyState : AppState :=
  { initialState with
      efficiency := some 0
      computedBreakdown := some (Breakdown.mk 0 0 0 0 0) }

/-- A state whose distance input is unset, with a breakdown. -/
def unsetDistanceState : AppState :=
  { initialState with
      distance := none
      computedBreakdown := some (Breakdown.mk 0 0 0 0 0) }

/-! ### Lemmas about the sampling loop -/

/-- Closed form of the sampling loop with a positive step: the samples are
`d, d + step, …` up to the largest one not exceeding the bound. -/
theorem loopFrom_closed (maxDistance stepSize : ℚ) (hs : 0 < stepSize) (d : ℚ) :
    loopFrom maxDistance stepSize d =
      (List.range (⌊(maxDistance - d) / stepSize⌋ + 1).toNat).map
        (fun i : ℕ => d + (i : ℚ) * stepSize) := by
  induction d using loopFrom.induct maxDistance stepSize with
  | case1 d h ih =>
    obtain ⟨hs2, hd⟩ := h
    rw [loopFrom, if_pos ⟨hs2, hd⟩, ih]
    have hne : stepSize ≠ 0 := ne_of_gt hs2
    have h1 : (maxDistance - (d + stepSize)) / stepSize
        = (maxDistance - d) / stepSize - 1 := by
      field_simp
      ring
    have h2 : ⌊(maxDistance - d) / stepSize - 1⌋ = ⌊(maxDistance - d) / stepSize⌋ - 1 := by
      exact_mod_cast Int.floor_sub_int ((maxDistance - d) / stepSize) 1
    have h3 : (0 : ℚ) ≤ (maxDistance - d) / stepSize :=
      div_nonneg (by linarith) (le_of_lt hs2)
    have h4 : (0 : ℤ) ≤ ⌊(maxDistance - d) / stepSize⌋ := Int.floor_nonneg.mpr h3
    have h5 : (⌊(maxDistance - d) / stepSize⌋ + 1).toNat
        = (⌊(maxDistance - (d + stepSize)) / stepSize⌋ + 1).toNat + 1 := by
      rw [h1, h2]
      omega
    rw [h5, List.range_succ_eq_map]
    simp only [List.map_cons, List.map_map]
    refine congrArg₂ List.cons (by push_cast; ring) ?_
    refine List.map_congr_left ?_
    intro i _
    simp only [Function.comp]
    push_cast
    ring
  | case2 d h =>
    rw [loopFrom, if_neg h]
    rcases not_and_or.mp h with h1 | h2
    · exact absurd hs h1
    · push_neg at h2
      have hx : (maxDistance - d) / stepSize < 0 := div_neg_of_neg_of_pos (by linarith) hs
      have hf : ⌊(maxDistance - d) / stepSize⌋ < 0 := by
        have := Int.floor_lt.mpr
          (show (maxDistance - d) / stepSize < ((0 : ℤ) : ℚ) by exact_mod_cast hx)
        simpa using this
      have hz : (⌊(maxDistance - d) / stepSize⌋ + 1).toNat = 0 := by omega
      simp [hz]

/-- The step actually used by the generators is positive whenever the bound
is positive. -/
theorem sampleStep_pos (maxDistance : ℚ) (h : 0 < maxDistance) :
    0 < ((⌈maxDistance / 20⌉ : ℤ) : ℚ) := by
  have : (0 : ℤ) < ⌈maxDistance / 20⌉ := Int.ceil_pos.mpr (by positivity)
  exact_mod_cast this

/-- The sampling loop terminates on every bound the generator guards let
through: for a nonzero bound, `forLoopPoints` with the generator's step is
`some` list. -/
theorem forLoopPoints_isSome (maxDistance : ℚ) (h : maxDistance ≠ 0) :
    (forLoopPoints maxDistance ((⌈maxDistance / 20⌉ : ℤ) : ℚ)).isSome = true := by
  rcases lt_or_gt_of_ne h with hneg | hpos
  · have hc : ⌈maxDistance / 20⌉ ≤ 0 := Int.ceil_le.mpr
      (by push_cast; linarith [hneg.le])
    have hc2 : ¬ (0 : ℚ) < ((⌈maxDistance / 20⌉ : ℤ) : ℚ) := by
      push_neg
      exact_mod_cast hc
    rw [forLoopPoints, if_neg hc2, if_pos hneg]
    rfl
  · rw [forLoopPoints, if_pos (sampleStep_pos maxDistance hpos)]
    rfl

/-- Bundle of sampling facts used for the chart claims: with a positive step
and a nonnegative bound, the loop started at `0` is nonempty, starts at `0`,
stays inside `[0, maxDistance]`, only visits multiples of the step, and its
last sample is within one step of the bound. -/
theorem loopFrom_zero_spec (maxDistance stepSize : ℚ) (hs : 0 < stepSize)
    (hn : 0 ≤ maxDistance) :
    loopFrom maxDistance stepSize 0 ≠ [] ∧
    (loopFrom maxDistance stepSize 0).head? = some 0 ∧
    (∀ x ∈ loopFrom maxDistance stepSize 0,
      0 ≤ x ∧ x ≤ maxDistance ∧ ∃ i : ℕ, x = (i : ℚ) * stepSize) ∧
    (∃ x ∈ loopFrom maxDistance stepSize 0, maxDistance - stepSize < x) := by
  have hclosed := loopFrom_closed maxDistance stepSize hs 0
  have hdiv : (0 : ℚ) ≤ maxDistance / stepSize := div_nonneg hn hs.le
  have hfl : (0 : ℤ) ≤ ⌊maxDistance / stepSize⌋ := Int.floor_nonneg.mpr hdiv
  have hN : (⌊(maxDistance - 0) / stepSize⌋ + 1).toNat = ⌊maxDistance / stepSize⌋.toNat + 1 := by
    rw [sub_zero]
    omega
  rw [hclosed, hN]
  refine ⟨by simp, ?_, ?_, ?_⟩
  · rw [List.range_succ_eq_map]
    simp
  · intro x hx
    rcases List.mem_map.mp hx with ⟨i, hi, rfl⟩
    rw [List.mem_range] at hi
    have hile : (i : ℤ) ≤ ⌊maxDistance / stepSize⌋ := by omega
    have hle : (i : ℚ) ≤ maxDistance / stepSize := by
      calc (i : ℚ) ≤ (⌊maxDistance / stepSize⌋ : ℚ) := by exact_mod_cast hile
        _ ≤ maxDistance / stepSize := Int.floor_le _
    refine ⟨by positivity, ?_, ⟨i, by ring⟩⟩
    have := (le_div_iff₀ hs).mp hle
    linarith
  · refine ⟨0 + (⌊maxDistance / stepSize⌋.toNat : ℚ) * stepSize, ?_, ?_⟩
    · exact List.mem_map.mpr ⟨⌊maxDistance / stepSize⌋.toNat, by
        rw [List.mem_range]
        omega, rfl⟩
    · have hlt : maxDistance / stepSize - 1 < (⌊maxDistance / stepSize⌋ : ℚ) :=
        Int.sub_one_lt_floor _
      have hcast : ((⌊maxDistance / stepSize⌋.toNat : ℤ) : ℚ)
          = ((⌊maxDistance / stepSize⌋ : ℤ) : ℚ) := by
        exact_mod_cast congrArg Int.cast (Int.toNat_of_nonneg hfl)
      have hq : maxDistance / stepSize - 1 < (⌊maxDistance / stepSize⌋.toNat : ℚ) := by
        push_cast at hcast ⊢
        rw [hcast]
        exact hlt
      have h7 : (maxDistance / stepSize - 1) * stepSize
          < (⌊maxDistance / stepSize⌋.toNat : ℚ) * stepSize :=
        mul_lt_mul_of_pos_right hq hs
      have h8 : (maxDistance / stepSize - 1) * stepSize = maxDistance - stepSize := by
        field_simp
      linarith

/-- Mapping over an optional value preserves definedness. -/
theorem isSome_option_map {α β : Type} (f : α → β) (x : Option α) :
    (x.map f).isSome = x.isSome := by
  cases x <;> rfl

/-- A truthy distance input makes the generators' sampling bound
`distance * 2` nonzero, so their loop terminates. -/
theorem generatorLoop_isSome (o : Option ℚ) (h : truthy o = true) :
    (forLoopPoints (o.getD 0 * 2) ((⌈o.getD 0 * 2 / 20⌉ : ℤ) : ℚ)).isSome = true := by
  cases o with
  | none => simp [truthy] at h
  | some d =>
    simp only [truthy, bne_iff_ne, ne_eq, decide_eq_true_eq] at h
    exact forLoopPoints_isSome _ (by simpa using mul_ne_zero h two_ne_zero)

/-! ### Claim theorems -/

/-- C1: for every input state that passes validation, the breakdown computed
by the Calculate handler satisfies `consumed = distance × efficiency / 100`,
`previousEstimatedCost = consumed × pastUnitPrice`,
`newFuelCost = consumed × currentUnitPrice`, `newTaxes = distance × 6.95`
and `newTotalCost = newFuelCost + newTaxes`. -/
theorem c1_breakdown_formulas (st : AppState) (d e cp pp : ℚ)
    (hd : st.distance = some d) (he : st.efficiency = some e)
    (hc : st.currentFuelPrice = some cp) (hp : st.pastFuelPrice = some pp)
    (hok : validationMessages st = []) :
    ∃ b, (handleCalculate st).computedBreakdown = some b ∧
      b.consumed = d * e / 100 ∧
      b.previousEstimatedCost = b.consumed * pp ∧
      b.newFuelCost = b.consumed * cp ∧
      b.newTaxes = d * 6.95 ∧
      b.newTotalCost = b.newFuelCost + b.newTaxes := by
  refine ⟨Breakdown.mk (d * e / 100) (d * e / 100 * pp) (d * e / 100 * cp)
    (d * 6.95) (d * e / 100 * cp + d * 6.95), ?_, rfl, rfl, rfl, rfl, rfl⟩
  simp [handleCalculate, validateInputs, hok, hd, he, hc, hp]

/-- C1 witness: the theorem applied to the initial inputs
(15000 km, 6.5, 185, 300), which pass validation. -/
theorem c1_breakdown_formulas_witness :
    ∃ b, (handleCalculate initialState).computedBreakdown = some b ∧
      b.consumed = 15000 * 6.5 / 100 ∧
      b.previousEstimatedCost = b.consumed * 300 ∧
      b.newFuelCost = b.consumed * 185 ∧
      b.newTaxes = 15000 * 6.95 ∧
      b.newTotalCost = b.newFuelCost + b.newTaxes :=
  c1_breakdown_formulas initialState 15000 6.5 185 300 rfl rfl rfl rfl
    (by norm_num [validationMessages, initialState])

/-- C2: the validator checks the four fields independently and returns the
messages of all violated fields in the fixed order distance, efficiency,
current price, past price; an empty result means every field passed; and the
input distance = -1, efficiency = 0 yields exactly the two messages, the
distance message first. -/
theorem c2_validator_field_order :
    (∀ st : AppState,
      validationMessages st =
        distanceMessages st.distance ++ efficiencyMessages st.efficiency ++
        currentPriceMessages st.vehicleType st.currentFuelPrice ++
        pastPriceMessages st.vehicleType st.pastFuelPrice) ∧
    (∀ st : AppState,
      validationMessages st = [] ↔
        distanceMessages st.distance = [] ∧ efficiencyMessages st.efficiency = [] ∧
        currentPriceMessages st.vehicleType st.currentFuelPrice = [] ∧
        pastPriceMessages st.vehicleType st.pastFuelPrice = []) ∧
    validationMessages { initialState with distance := some (-1), efficiency := some 0 }
      = ["Distance cannot be negative", "Efficiency must be greater than 0"] := by
  have hdecomp : ∀ st : AppState,
      validationMessages st =
        distanceMessages st.distance ++ efficiencyMessages st.efficiency ++
        currentPriceMessages st.vehicleType st.currentFuelPrice ++
        pastPriceMessages st.vehicleType st.pastFuelPrice := by
    intro st
    rfl
  refine ⟨hdecomp, ?_, ?_⟩
  · intro st
    rw [hdecomp st]
    simp [List.append_eq_nil]
  · norm_num [validationMessages, initialState]

/-- C4: on the concrete scenario distance = 15000, efficiency = 6.5,
current price = 185, past price = 300 (exactly the initial state), the
handler computes consumed = 975, previousEstimatedCost = 292500,
newFuelCost = 180375, newTaxes = 104250, newTotalCost = 284625, and the
savings equal 7875 ≥ 0. -/
theorem c4_concrete_scenario :
    (handleCalculate initialState).computedBreakdown
      = some (Breakdown.mk 975 292500 180375 104250 284625) ∧
    savings (handleCalculate initialState) = some 7875 ∧
    (0 : ℚ) ≤ 7875 := by
  have hb : (handleCalculate initialState).computedBreakdown
      = some (Breakdown.mk 975 292500 180375 104250 284625) := by
    norm_num [handleCalculate, validateInputs, validationMessages, initialState]
  refine ⟨hb, ?_, by norm_num⟩
  rw [savings, hb]
  norm_num

/-- C9 counterexample: running `validateInputs` is not free of effects on the
application state — on a state holding a stale error list and valid inputs it
overwrites the stored error list with the (empty) result. -/
theorem c9_counterexample :
    ({ initialState with errors := ["stale"] } : AppState).errors = ["stale"] ∧
    (validateInputs { initialState with errors := ["stale"] }).1.errors = [] := by
  refine ⟨rfl, ?_⟩
  norm_num [validateInputs, validationMessages, initialState]

/-- C9 amended: running `validateInputs` leaves the inputs, the breakdown and
the expansion flags unchanged; its only state effect is storing the computed
message list in `errors`, and its boolean result is true exactly when that
list is empty. -/
theorem c9_validation_frame (st : AppState) :
    (validateInputs st).1.vehicleType = st.vehicleType ∧
    (validateInputs st).1.distance = st.distance ∧
    (validateInputs st).1.efficiency = st.efficiency ∧
    (validateInputs st).1.currentFuelPrice = st.currentFuelPrice ∧
    (validateInputs st).1.pastFuelPrice = st.pastFuelPrice ∧
    (validateInputs st).1.computedBreakdown = st.computedBreakdown ∧
    (validateInputs st).1.isGraphExpanded = st.isGraphExpanded ∧
    (validateInputs st).1.isVehicleComparisonExpanded = st.isVehicleComparisonExpanded ∧
    (validateInputs st).1.isEfficiencyComparisonExpanded = st.isEfficiencyComparisonExpanded ∧
    (validateInputs st).1.errors = validationMessages st ∧
    ((validateInputs st).2 = true ↔ validationMessages st = []) := by
  simp [validateInputs, List.length_eq_zero]

/-- C6: validator boundary behaviour around the initial (otherwise valid)
inputs: distance 1,000,000 passes and anything larger fails as unreasonably
large; efficiency 0 fails as not greater than 0; efficiency 1000 passes and
anything larger fails; both prices pass at 0 and at 10,000 and fail below 0
or above 10,000. -/
theorem c6_validator_boundaries :
    (validationMessages { initialState with distance := some 1000000 } = []) ∧
    (∀ q : ℚ, 1000000 < q →
      validationMessages { initialState with distance := some q }
        = ["Distance seems unreasonably large"]) ∧
    (validationMessages { initialState with efficiency := some 0 }
      = ["Efficiency must be greater than 0"]) ∧
    (validationMessages { initialState with efficiency := some 1000 } = []) ∧
    (∀ q : ℚ, 1000 < q →
      validationMessages { initialState with efficiency := some q }
        = ["Efficiency seems unreasonably large"]) ∧
    (validationMessages { initialState with currentFuelPrice := some 0 } = []) ∧
    (validationMessages { initialState with currentFuelPrice := some 10000 } = []) ∧
    (∀ q : ℚ, q < 0 →
      validationMessages { initialState with currentFuelPrice := some q }
        = ["Current fuel price cannot be negative"]) ∧
    (∀ q : ℚ, 10000 < q →
      validationMessages { initialState with currentFuelPrice := some q }
        = ["Current fuel price seems unreasonably large"]) ∧
    (validationMessages { initialState with pastFuelPrice := some 0 } = []) ∧
    (validationMessages { initialState with pastFuelPrice := some 10000 } = []) ∧
    (∀ q : ℚ, q < 0 →
      validationMessages { initialState with pastFuelPrice := some q }
        = ["Past fuel price cannot be negative"]) ∧
    (∀ q : ℚ, 10000 < q →
      validationMessages { initialState with pastFuelPrice := some q }
        = ["Past fuel price seems unreasonably large"]) := by
  refine ⟨by norm_num [validationMessages, initialState], ?_,
    by norm_num [validationMessages, initialState],
    by norm_num [validationMessages, initialState], ?_,
    by norm_num [validationMessages, initialState, priceLabel],
    by norm_num [validationMessages, initialState, priceLabel], ?_, ?_,
    by norm_num [validationMessages, initialState, priceLabel],
    by norm_num [validationMessages, initialState, priceLabel], ?_, ?_⟩
  · intro q hq
    norm_num [validationMessages, initialState, show ¬ q < 0 by linarith, hq]
  · intro q hq
    norm_num [validationMessages, initialState, show ¬ q ≤ 0 by linarith, hq]
  · intro q hq
    norm_num [validationMessages, initialState, priceLabel, hq]
    rfl
  · intro q hq
    norm_num [validationMessages, initialState, priceLabel, show ¬ q < 0 by linarith, hq]
    rfl
  · intro q hq
    norm_num [validationMessages, initialState, priceLabel, hq]
    rfl
  · intro q hq
    norm_num [validationMessages, initialState, priceLabel, show ¬ q < 0 by linarith, hq]
    rfl

/-- C6 witness: the boundary statements instantiated just past each bound
(1,000,001; 1,001; -1 and 10,001 for each price). -/
theorem c6_validator_boundaries_witness :
    validationMessages { initialState with distance := some 1000001 }
      = ["Distance seems unreasonably large"] ∧
    validationMessages { initialState with efficiency := some 1001 }
      = ["Efficiency seems unreasonably large"] ∧
    validationMessages { initialState with currentFuelPrice := some (-1) }
      = ["Current fuel price cannot be negative"] ∧
    validationMessages { initialState with currentFuelPrice := some 10001 }
      = ["Current fuel price seems unreasonably large"] ∧
    validationMessages { initialState with pastFuelPrice := some (-1) }
      = ["Past fuel price cannot be negative"] ∧
    validationMessages { initialState with pastFuelPrice := some 10001 }
      = ["Past fuel price seems unreasonably large"] :=
  ⟨c6_validator_boundaries.2.1 1000001 (by norm_num),
   c6_validator_boundaries.2.2.2.2.1 1001 (by norm_num),
   c6_validator_boundaries.2.2.2.2.2.2.2.1 (-1) (by norm_num),
   c6_validator_boundaries.2.2.2.2.2.2.2.2.1 10001 (by norm_num),
   c6_validator_boundaries.2.2.2.2.2.2.2.2.2.2.2.1 (-1) (by norm_num),
   c6_validator_boundaries.2.2.2.2.2.2.2.2.2.2.2.2 10001 (by norm_num)⟩

/-- C3: when validation fails, the Calculate handler stores no breakdown and
leaves a previously stored breakdown unchanged; and among all the component's
actions only the explicit Reset clears a stored breakdown. -/
theorem c3_failure_preserves_breakdown (st : AppState) (a : Action) :
    (validationMessages st ≠ [] →
      (handleCalculate st).computedBreakdown = st.computedBreakdown) ∧
    ((dispatch a st).computedBreakdown = none →
      st.computedBreakdown = none ∨ a = Action.reset) := by
  constructor
  · intro hne
    have hfail : (validateInputs st).2 = false := by
      simp [validateInputs, List.length_eq_zero, hne]
    rw [handleCalculate, hfail]
    simp [validateInputs]
  · intro hnone
    cases a with
    | setVehicleType vt => exact Or.inl (by simpa [dispatch] using hnone)
    | setDistance v => exact Or.inl (by simpa [dispatch] using hnone)
    | setEfficiency v => exact Or.inl (by simpa [dispatch] using hnone)
    | setCurrentFuelPrice v => exact Or.inl (by simpa [dispatch] using hnone)
    | setPastFuelPrice v => exact Or.inl (by simpa [dispatch] using hnone)
    | calculate =>
      left
      simp only [dispatch] at hnone
      rw [handleCalculate] at hnone
      by_cases hv : (validateInputs st).2
      · rw [if_pos hv] at hnone
        simp at hnone
      · simp only [Bool.not_eq_true] at hv
        rw [hv] at hnone
        simpa [validateInputs] using hnone
    | reset => exact Or.inr rfl
    | toggleGraph => exact Or.inl (by simpa [dispatch] using hnone)
    | toggleVehicleComparison => exact Or.inl (by simpa [dispatch] using hnone)
    | toggleEfficiencyComparison => exact Or.inl (by simpa [dispatch] using hnone)

/-- C3 witness: on `staleBreakdownState` the failed re-calculation keeps the
stored breakdown, and the Reset disjunct holds for the reset action. -/
theorem c3_failure_preserves_breakdown_witness :
    (handleCalculate staleBreakdownState).computedBreakdown
      = staleBreakdownState.computedBreakdown ∧
    (staleBreakdownState.computedBreakdown = none ∨ Action.reset = Action.reset) :=
  ⟨(c3_failure_preserves_breakdown staleBreakdownState Action.reset).1
      (by norm_num [validationMessages, staleBreakdownState, initialState]),
   (c3_failure_preserves_breakdown staleBreakdownState Action.reset).2
      (by norm_num [dispatch])⟩

/-- C10: each chart generator is total — for every input state the sampling
loop terminates (`isSome`, the divergence marker `none` is never produced);
whenever the guard lets a nonzero distance through, the computed step is
positive or the loop body runs zero times. -/
theorem c10_generators_total (st : AppState) :
    (graphData st).isSome = true ∧
    (vehicleComparisonData st).isSome = true ∧
    (efficiencyComparisonData st).isSome = true ∧
    (∀ q : ℚ, q ≠ 0 →
      (0 : ℤ) < ⌈q * 2 / 20⌉ ∨ loopFrom (q * 2) ((⌈q * 2 / 20⌉ : ℤ) : ℚ) 0 = []) := by
  refine ⟨?_, ?_, ?_, ?_⟩
  · rw [graphData]
    split
    · rename_i h
      simp only [Bool.and_eq_true] at h
      rw [isSome_option_map]
      exact generatorLoop_isSome st.distance h.1.1.1.2
    · rfl
  · rw [vehicleComparisonData]
    split
    · rename_i h
      simp only [Bool.and_eq_true] at h
      rw [isSome_option_map]
      exact generatorLoop_isSome st.distance h.2
    · rfl
  · rw [efficiencyComparisonData]
    split
    · rename_i h
      simp only [Bool.and_eq_true] at h
      rw [isSome_option_map]
      exact generatorLoop_isSome st.distance h.1.1.1.2
    · rfl
  · intro q hq
    rcases lt_or_gt_of_ne hq with hneg | hpos
    · right
      rw [loopFrom, if_neg]
      rintro ⟨h1, h2⟩
      nlinarith
    · left
      exact Int.ceil_pos.mpr (by positivity)

/-- C10 witness: totality at the initial state and the step disjunction at
the concrete nonzero distance 3. -/
theorem c10_generators_total_witness :
    (graphData initialState).isSome = true ∧
    (vehicleComparisonData initialState).isSome = true ∧
    (efficiencyComparisonData initialState).isSome = true ∧
    ((0 : ℤ) < ⌈(3 : ℚ) * 2 / 20⌉ ∨
      loopFrom ((3 : ℚ) * 2) ((⌈(3 : ℚ) * 2 / 20⌉ : ℤ) : ℚ) 0 = []) :=
  ⟨(c10_generators_total initialState).1,
   (c10_generators_total initialState).2.1,
   (c10_generators_total initialState).2.2.1,
   (c10_generators_total initialState).2.2.2 3 (by norm_num)⟩

/-- C8: for every state the guard lets through, the efficiency-sensitivity
generator produces, at each sample distance, the old-system value at the base
efficiency and new-system values at base, base + 1 and `max 0 (base - 1)`;
at base efficiency 0.5 the more-efficient series clamps to efficiency 0, so
its value is the pure road tax. -/
theorem c8_efficiency_sensitivity (st : AppState) (d e cp pp : ℚ)
    (hb : st.computedBreakdown.isSome = true)
    (hd : st.distance = some d) (hd0 : d ≠ 0)
    (he : st.efficiency = some e) (he0 : e ≠ 0)
    (hc : st.currentFuelPrice = some cp) (hc0 : cp ≠ 0)
    (hp : st.pastFuelPrice = some pp) (hp0 : pp ≠ 0) :
    ∃ pts, efficiencyComparisonData st = some pts ∧
      (∀ p ∈ pts,
        p.oldSystem = round (p.distance * e / 100 * pp) ∧
        p.newBase = round (p.distance * 6.95 + p.distance * e / 100 * cp) ∧
        p.newPlus1 = round (p.distance * 6.95 + p.distance * (e + 1) / 100 * cp) ∧
        p.newMinus1 = round (p.distance * 6.95 + p.distance * max 0 (e - 1) / 100 * cp)) ∧
      (e = 0.5 → ∀ p ∈ pts, p.newMinus1 = round (p.distance * (6.95 : ℚ))) := by
  have htd : truthy st.distance = true := by
    rw [hd]
    simp [truthy, hd0]
  have hte : truthy st.efficiency = true := by
    rw [he]
    simp [truthy, he0]
  have htc : truthy st.currentFuelPrice = true := by
    rw [hc]
    simp [truthy, hc0]
  have htp : truthy st.pastFuelPrice = true := by
    rw [hp]
    simp [truthy, hp0]
  obtain ⟨L, hL⟩ := Option.isSome_iff_exists.mp (generatorLoop_isSome st.distance htd)
  rw [efficiencyComparisonData, if_pos (by rw [hb, htd, hte, htc, htp]; rfl)]
  simp only [hd, he, hc, hp, Option.getD_some] at hL ⊢
  rw [hL]
  simp only [Option.map_some']
  refine ⟨_, rfl, ?_, ?_⟩
  · intro p hpmem
    rcases List.mem_map.mp hpmem with ⟨x, _, rfl⟩
    exact ⟨rfl, rfl, rfl, rfl⟩
  · intro he2 p hpmem
    rcases List.mem_map.mp hpmem with ⟨x, _, rfl⟩
    simp only [EfficiencyPoint.mk.injEq]
    rw [he2]
    norm_num

/-- C8 witness: the theorem at a concrete state with base efficiency 0.5
(distance 1/2, prices 185 and 300, breakdown present). -/
theorem c8_efficiency_sensitivity_witness :
    ∃ pts, efficiencyComparisonData halfEfficiencyState = some pts ∧
      (∀ p ∈ pts,
        p.oldSystem = round (p.distance * 0.5 / 100 * 300) ∧
        p.newBase = round (p.distance * 6.95 + p.distance * 0.5 / 100 * 185) ∧
        p.newPlus1 = round (p.distance * 6.95 + p.distance * (0.5 + 1) / 100 * 185) ∧
        p.newMinus1 = round (p.distance * 6.95 + p.distance * max 0 (0.5 - 1) / 100 * 185)) ∧
      ((0.5 : ℚ) = 0.5 → ∀ p ∈ pts, p.newMinus1 = round (p.distance * (6.95 : ℚ))) :=
  c8_efficiency_sensitivity halfEfficiencyState (1/2) 0.5 185 300 rfl rfl (by norm_num)
    rfl (by norm_num) rfl (by norm_num) rfl (by norm_num)

/-- C5 counterexample: with a breakdown present and distance 0 (the only way
`maxDistance` can be 0), every generator returns the empty sequence, not the
single point at distance 0 the claim asserts. -/
theorem c5_counterexample :
    zeroDistanceState.computedBreakdown.isSome = true ∧
    zeroDistanceState.distance = some 0 ∧
    graphData zeroDistanceState = some [] ∧
    vehicleComparisonData zeroDistanceState = some [] ∧
    efficiencyComparisonData zeroDistanceState = some [] := by
  refine ⟨rfl, rfl, ?_, ?_, ?_⟩ <;>
    norm_num [graphData, vehicleComparisonData, efficiencyComparisonData,
      zeroDistanceState, initialState, truthy]

/-- C5 amended: whenever the guards admit sampling (breakdown present, all
inputs truthy) and the distance is positive, all three generators sample the
same distances: a nonempty sequence starting at 0, inside the inclusive
range `[0, 2 × distance]`, on multiples of the step `ceil(maxDistance / 20)`,
whose last sample is within one step of the bound.  (Distance 0 never
reaches the loop: the guard returns the empty dataset, see the
counterexample.) -/
theorem c5_sampling_range (st : AppState) (d : ℚ)
    (hb : st.computedBreakdown.isSome = true)
    (hd : st.distance = some d) (hpos : 0 < d)
    (he : truthy st.efficiency = true) (hc : truthy st.currentFuelPrice = true)
    (hp : truthy st.pastFuelPrice = true) :
    ∃ pts vpts epts,
      graphData st = some pts ∧
      vehicleComparisonData st = some vpts ∧
      efficiencyComparisonData st = some epts ∧
      vpts.map VehiclePoint.distance = pts.map GraphPoint.distance ∧
      epts.map EfficiencyPoint.distance = pts.map GraphPoint.distance ∧
      pts ≠ [] ∧
      (pts.map GraphPoint.distance).head? = some 0 ∧
      (∀ p ∈ pts, 0 ≤ p.distance ∧ p.distance ≤ d * 2 ∧
        ∃ i : ℕ, p.distance = (i : ℚ) * ((⌈d * 2 / 20⌉ : ℤ) : ℚ)) ∧
      (∃ p ∈ pts, d * 2 - ((⌈d * 2 / 20⌉ : ℤ) : ℚ) < p.distance) := by
  have htd : truthy st.distance = true := by
    rw [hd]
    simp [truthy, hpos.ne']
  have hs : (0 : ℚ) < ((⌈d * 2 / 20⌉ : ℤ) : ℚ) := sampleStep_pos (d * 2) (by linarith)
  have hfl : forLoopPoints (d * 2) ((⌈d * 2 / 20⌉ : ℤ) : ℚ)
      = some (loopFrom (d * 2) ((⌈d * 2 / 20⌉ : ℤ) : ℚ) 0) := by
    rw [forLoopPoints, if_pos hs]
  obtain ⟨hne, hhead, hmem, hcov⟩ :=
    loopFrom_zero_spec (d * 2) ((⌈d * 2 / 20⌉ : ℤ) : ℚ) hs (by linarith)
  simp only [graphData, vehicleComparisonData, efficiencyComparisonData,
    hb, htd, he, hc, hp, Bool.true_and, Bool.and_self, if_true]
  simp only [hd, Option.getD_some]
  simp only [hfl, Option.map_some']
  refine ⟨_, _, _, rfl, rfl, rfl, ?_, ?_, ?_, ?_, ?_, ?_⟩
  · simp [List.map_map, Function.comp]
  · simp [List.map_map, Function.comp]
  · simp only [ne_eq, List.map_eq_nil_iff]
    exact hne
  · simp only [List.map_map]
    simpa [Function.comp] using hhead
  · intro p hpmem
    rcases List.mem_map.mp hpmem with ⟨x, hx, rfl⟩
    obtain ⟨h1, h2, i, hi⟩ := hmem x hx
    exact ⟨h1, h2, i, hi⟩
  · obtain ⟨x, hx, hxlt⟩ := hcov
    exact ⟨_, List.mem_map_of_mem _ hx, hxlt⟩

/-- C5 witness: the sampling bundle at a concrete state with distance 1/2
(bound 1, step 1: samples 0 and 1) and a stored breakdown. -/
theorem c5_sampling_range_witness :
    ∃ pts vpts epts,
      graphData { initialState with
          distance := some (1/2)
          computedBreakdown := some (Breakdown.mk 0 0 0 0 0) } = some pts ∧
      vehicleComparisonData { initialState with
          distance := some (1/2)
          computedBreakdown := some (Breakdown.mk 0 0 0 0 0) } = some vpts ∧
      efficiencyComparisonData { initialState with
          distance := some (1/2)
          computedBreakdown := some (Breakdown.mk 0 0 0 0 0) } = some epts ∧
      vpts.map VehiclePoint.distance = pts.map GraphPoint.distance ∧
      epts.map EfficiencyPoint.distance = pts.map GraphPoint.distance ∧
      pts ≠ [] ∧
      (pts.map GraphPoint.distance).head? = some 0 ∧
      (∀ p ∈ pts, 0 ≤ p.distance ∧ p.distance ≤ (1 / 2 : ℚ) * 2 ∧
        ∃ i : ℕ, p.distance = (i : ℚ) * ((⌈(1 / 2 : ℚ) * 2 / 20⌉ : ℤ) : ℚ)) ∧
      (∃ p ∈ pts, (1 / 2 : ℚ) * 2 - ((⌈(1 / 2 : ℚ) * 2 / 20⌉ : ℤ) : ℚ) < p.distance) :=
  c5_sampling_range _ (1 / 2) rfl rfl (by norm_num) (by norm_num [initialState, truthy])
    (by norm_num [initialState, truthy]) (by norm_num [initialState, truthy])

/-- C7 counterexample: with the efficiency input unset (and a breakdown and
nonzero distance present), `vehicleComparisonData` still produces a
non-empty dataset, contradicting the claim that every generator returns the
empty sequence when any of the four inputs is unset or zero. -/
theorem c7_counterexample :
    missingEfficiencyState.efficiency = none ∧
    ∃ pts, vehicleComparisonData missingEfficiencyState = some pts ∧ pts ≠ [] := by
  refine ⟨rfl, ?_⟩
  have hceil : (⌈(1 : ℚ) / 20⌉ : ℤ) = 1 := by
    rw [Int.ceil_eq_iff]
    norm_num
  have hstep : ((⌈(1 : ℚ) / 20⌉ : ℤ) : ℚ) = 1 := by
    rw [hceil]
    norm_num
  norm_num [vehicleComparisonData, missingEfficiencyState, initialState, truthy,
    otherVehicleType, forLoopPoints, hstep]
  rw [loopFrom_closed _ _ (by norm_num)]
  norm_num

/-- C7 amended: `graphData` and `efficiencyComparisonData` return the empty
dataset whenever the breakdown is absent or any of the four inputs is unset
or zero; `vehicleComparisonData` checks only the breakdown and the distance,
and returns the empty dataset when either of those fails. -/
theorem c7_generator_guards (st : AppState) :
    ((st.computedBreakdown.isSome = false ∨ truthy st.distance = false ∨
      truthy st.efficiency = false ∨ truthy st.currentFuelPrice = false ∨
      truthy st.pastFuelPrice = false) →
      graphData st = some [] ∧ efficiencyComparisonData st = some []) ∧
    ((st.computedBreakdown.isSome = false ∨ truthy st.distance = false) →
      vehicleComparisonData st = some []) := by
  constructor
  · intro h
    constructor
    · rcases h with h | h | h | h | h <;> simp [graphData, h]
    · rcases h with h | h | h | h | h <;> simp [efficiencyComparisonData, h]
  · intro h
    rcases h with h | h <;> simp [vehicleComparisonData, h]

/-- C7 witness: zero efficiency empties `graphData` and
`efficiencyComparisonData`; an unset distance empties
`vehicleComparisonData`. -/
theorem c7_generator_guards_witness :
    (graphData zeroEfficiencyState = some [] ∧
      efficiencyComparisonData zeroEfficiencyState = some []) ∧
    vehicleComparisonData unsetDistanceState = some [] :=
  ⟨(c7_generator_guards zeroEfficiencyState).1
      (Or.inr (Or.inr (Or.inl (by norm_num [zeroEfficiencyState, initialState, truthy])))),
   (c7_generator_guards unsetDistanceState).2
      (Or.inr (by norm_num [unsetDistanceState, initialState, truthy]))⟩

end FuelTax
